import Mathlib

/-!
# Verification of the MongoDB subprocess lifecycle controller

Shallow embedding of `src/impulse/mongodb_subprocess.ts` (class
`MongoDBSubprocess`): configuration resolution, argument construction,
the event-driven startup path of `_start`, the shutdown path of `stop`,
the start-call de-duplication, the port preflight check, and
`getConnectionUri`.

The JavaScript code is single-threaded and event-driven; every handler
(stream data, process error, process exit, timer fire) runs to completion
atomically.  We therefore model one startup attempt as a deterministic
step function over an explicit state, driven by a list of events, and
a `stop()` call in flight the same way.  JavaScript promises settle at
most once; a `resolve`/`reject` after settlement is a no-op, which we
model with a first-write-wins `settle`.
-/

set_option autoImplicit false

namespace MongoDBSubprocess

/-- The caller-supplied configuration (`MongoSubprocessConfig` in the
source).  Optional fields are `Option`; the numeric
`wiredTigerCacheSizeGB` value is modelled by its string rendering, since
only its presence and its rendered form reach the argument list. -/
structure MongoSubprocessConfig where
  enabled : Bool
  mongodPath : Option String
  dbPath : Option String
  port : Option Nat
  logPath : Option String
  wiredTigerCacheSizeGB : Option String
  deriving Repr, DecidableEq

/-- The fully resolved configuration stored in `this.config`
(`SubprocessConfig` in the source). -/
structure SubprocessConfig where
  enabled : Bool
  mongodPath : String
  dbPath : String
  port : Nat
  logPath : String
  wiredTigerCacheSizeGB : Option String
  deriving Repr, DecidableEq

/-- JavaScript `a || d` for an optional string: `undefined` and the empty
string are falsy. -/
def jsOrStr (x : Option String) (d : String) : String :=
  match x with
  | none => d
  | some s => if s = "" then d else s

/-- JavaScript `a || d` for an optional number: `undefined` and `0` are
falsy. -/
def jsOrNat (x : Option Nat) (d : Nat) : Nat :=
  match x with
  | none => d
  | some n => if n = 0 then d else n

/-- POSIX `path.join` restricted to plain segments, as used by the
constructor. -/
def jsPathJoin (a b : String) : String := a ++ "/" ++ b

/-- The constructor (source lines 32-40): builds `this.config` from the
caller config and defaults.  Note the object literal assigns only
`mongodPath`, `dbPath`, `port`, `logPath` and `enabled`; the
`wiredTigerCacheSizeGB` field is NOT copied, so it is `undefined` on
`this.config` no matter what the caller passed. -/
def resolveConfig (cwd : String) (c : MongoSubprocessConfig) : SubprocessConfig :=
  { mongodPath := jsOrStr c.mongodPath "mongod"
    dbPath := jsOrStr c.dbPath (jsPathJoin cwd ".mongodb-data")
    port := jsOrNat c.port 27017
    logPath := jsOrStr c.logPath (jsPathJoin (jsPathJoin cwd "logs") "mongodb.log")
    enabled := c.enabled
    wiredTigerCacheSizeGB := none }

/-- The argument list built in `_start` (source lines 71-80). -/
def buildArgs (c : SubprocessConfig) : List String :=
  let args := ["--dbpath", c.dbPath,
               "--port", toString c.port,
               "--logpath", c.logPath,
               "--bind_ip", "127.0.0.1"]
  match c.wiredTigerCacheSizeGB with
  | some v => args ++ ["--wiredTigerCacheSizeGB", v]
  | none => args

/-- Does `pat` occur contiguously in `l`?  (Helper for the JavaScript
`String.prototype.includes`.) -/
def listIncludes (l pat : List Char) : Bool :=
  match l with
  | [] => pat.isEmpty
  | _ :: t => pat.isPrefixOf l || listIncludes t pat

/-- JavaScript `haystack.includes(pat)`: contiguous substring test. -/
def strIncludes (haystack pat : String) : Bool :=
  listIncludes haystack.toList pat.toList

/-- The readiness test applied to each stdout/stderr chunk (source lines
112 and 119): the chunk contains `Waiting for connections` or
`waiting for connections`. -/
def chunkSignalsReady (output : String) : Bool :=
  strIncludes output "Waiting for connections" ||
  strIncludes output "waiting for connections"

/-- ASCII lower-casing of one character. -/
def charLower (c : Char) : Char :=
  if 'A' ≤ c && c ≤ 'Z' then Char.ofNat (c.toNat + 32) else c

/-- Modelled from the spec: the spec describes readiness detection as a
"case-insensitive match on a fixed phrase"; this is that (fully)
case-insensitive matcher, stated for comparison with the source's
`chunkSignalsReady`. -/
def specReadyCaseInsensitive (output : String) : Bool :=
  listIncludes (output.toList.map charLower) "waiting for connections".toList

/-! ## The startup attempt: the promise executor of `_start`
(source lines 82-139)

After `spawn` returns (line 83), `this.process` is set, a 30 s startup
timer is armed (line 136) and the closure flag `resolved` is false.
Five kinds of events can then fire, each handled atomically:
stdout data, stderr data, the process `error` event, the process `exit`
event, and the startup timer.  `AttemptState` carries the instance
fields the handlers touch plus the closure state and an observation log
of signals sent to the process. -/

/-- Signals a `ChildProcess.kill` call can send. -/
inductive Sig
  | sigterm
  | sigkill
  deriving Repr, DecidableEq

/-- The errors `_start` can reject with (source lines 125, 132, 137). -/
inductive StartErr
  | spawnError (msg : String)
  | prematureExit (code : Option Int)
  | startupTimeout
  deriving Repr, DecidableEq

/-- Settlement value of the startup promise. -/
inductive StartOutcome
  | ok
  | err (e : StartErr)
  deriving Repr, DecidableEq

/-- State of one startup attempt: the mutable instance fields
(`process`, `isRunning`, `startupPromise` modelled by presence flags),
the `_start` closure state (`resolved`, the armed timer), the
settlement of the promise `_start` returned (`none` while pending), and
the list of kill signals sent so far. -/
structure AttemptState where
  process : Bool
  isRunning : Bool
  startupPromise : Bool
  resolved : Bool
  timerActive : Bool
  outcome : Option StartOutcome
  sigsSent : List Sig
  deriving Repr, DecidableEq

/-- State right after `spawn` (line 83): handle present, `isRunning`
still false, `this.startupPromise` was set by `start()` (line 51), the
closure flag clear, the 30 s timer armed, promise pending. -/
def initAttempt : AttemptState :=
  { process := true, isRunning := false, startupPromise := true,
    resolved := false, timerActive := true, outcome := none, sigsSent := [] }

/-- JavaScript promise settlement: the first `resolve`/`reject` wins,
later ones are no-ops. -/
def settle (s : AttemptState) (v : StartOutcome) : AttemptState :=
  match s.outcome with
  | none => { s with outcome := some v }
  | some _ => s

/-- The synchronous effect of the `this.stop()` call made inside
`doReject` (line 106).  `stop` (line 142) returns immediately when
`!this.process || !this.isRunning`; otherwise it sends SIGTERM and arms
its grace machinery (modelled in full by `StopState` below; during a
startup attempt `isRunning` is still false whenever `doReject` runs, so
this branch is unreachable there, which `runStart_sigsSent` proves). -/
def stopSyncCall (s : AttemptState) : AttemptState :=
  if !s.process || !s.isRunning then s
  else { s with sigsSent := s.sigsSent ++ [Sig.sigterm] }

/-- `doResolve` (source lines 94-100): guarded by `resolved`; clears the
timer, sets `isRunning`, resolves the promise. -/
def doResolve (s : AttemptState) : AttemptState :=
  if s.resolved then s
  else
    settle { s with resolved := true, timerActive := false, isRunning := true }
      StartOutcome.ok

/-- `doReject` (source lines 102-108): guarded by `resolved`; clears the
timer, calls `this.stop()`, rejects the promise. -/
def doReject (s : AttemptState) (e : StartErr) : AttemptState :=
  if s.resolved then s
  else
    settle (stopSyncCall { s with resolved := true, timerActive := false })
      (StartOutcome.err e)

/-- The events that can reach the handlers registered by `_start`. -/
inductive Event
  | stdoutData (s : String)
  | stderrData (s : String)
  | errorEvt (msg : String)
  | exitEvt (code : Option Int)
  | timeoutFire
  deriving Repr, DecidableEq

/-- One atomic handler run (source lines 110-138):
stdout/stderr chunks call `doResolve` when they contain the readiness
marker (lines 110-122); the `error` event calls `doReject` with a
spawn error (lines 124-126); the `exit` event clears `isRunning` and
the handle, then calls `doReject` unless already resolved
(lines 128-134); the startup timer, when still armed, calls `doReject`
with the timeout error (lines 136-138). -/
def stepStart (s : AttemptState) (e : Event) : AttemptState :=
  match e with
  | Event.stdoutData out => if chunkSignalsReady out then doResolve s else s
  | Event.stderrData out => if chunkSignalsReady out then doResolve s else s
  | Event.errorEvt msg => doReject s (StartErr.spawnError msg)
  | Event.exitEvt code =>
      let t := { s with isRunning := false, process := false }
      if !t.resolved then doReject t (StartErr.prematureExit code) else t
  | Event.timeoutFire =>
      if s.timerActive then doReject s StartErr.startupTimeout else s

/-- Run one startup attempt on a list of events. -/
def runStart (es : List Event) : AttemptState :=
  es.foldl stepStart initAttempt

/-- Classification of an event as one of the four startup signals
(`none` for an output chunk without the readiness marker, which no
handler reacts to). -/
inductive Sigl
  | ready
  | spawnErr (msg : String)
  | exited (code : Option Int)
  | timedOut
  deriving Repr, DecidableEq

/-- Which signal, if any, an event carries. -/
def signalOf : Event → Option Sigl
  | Event.stdoutData s => if chunkSignalsReady s then some Sigl.ready else none
  | Event.stderrData s => if chunkSignalsReady s then some Sigl.ready else none
  | Event.errorEvt msg => some (Sigl.spawnErr msg)
  | Event.exitEvt c => some (Sigl.exited c)
  | Event.timeoutFire => some Sigl.timedOut

/-- The settlement each first-arriving signal produces. -/
def siglOutcome : Sigl → StartOutcome
  | Sigl.ready => StartOutcome.ok
  | Sigl.spawnErr m => StartOutcome.err (StartErr.spawnError m)
  | Sigl.exited c => StartOutcome.err (StartErr.prematureExit c)
  | Sigl.timedOut => StartOutcome.err StartErr.startupTimeout

/-! ## `stop()` (source lines 142-165) -/

/-- The grace period of `stop` before escalation (line 153). -/
def stopGraceMs : Nat := 5000

/-- The startup timeout of `_start` (line 138). -/
def startupTimeoutMs : Nat := 30000

/-- Controller state as seen by a `stop()` call: the instance fields,
whether the grace timer of this call is armed, whether the promise
returned by `stop` has resolved (the executor at lines 147-164 never
calls a reject, so no rejection field exists), and the kill signals
sent. -/
structure StopState where
  process : Bool
  isRunning : Bool
  startupPromise : Bool
  graceTimerActive : Bool
  stopResolved : Bool
  sigsSent : List Sig
  deriving Repr, DecidableEq

/-- How the synchronous part of `stop()` returned. -/
inductive StopRet
  | immediate
  | pending
  deriving Repr, DecidableEq

/-- The synchronous part of `stop()` (lines 142-164): return at once
(an already-resolved promise) when `!this.process || !this.isRunning`;
otherwise arm the 5 s grace timer, register the once-exit handler, and
send SIGTERM. -/
def stopEntry (s : StopState) : StopState × StopRet :=
  if !s.process || !s.isRunning then (s, StopRet.immediate)
  else ({ s with graceTimerActive := true,
                 sigsSent := s.sigsSent ++ [Sig.sigterm] }, StopRet.pending)

/-- Events a pending `stop()` waits on. -/
inductive StopEvent
  | exitEvt
  | graceFire
  deriving Repr, DecidableEq

/-- One atomic handler run of a pending `stop()`:
the grace timer (lines 148-153) sends SIGKILL if a handle remains and
resolves; the once-exit handler (lines 155-161) clears the timer,
clears `isRunning`, the handle and `startupPromise`, and resolves. -/
def stepStop (s : StopState) (e : StopEvent) : StopState :=
  match e with
  | StopEvent.graceFire =>
      if s.graceTimerActive then
        let t := { s with graceTimerActive := false }
        let t := if t.process then { t with sigsSent := t.sigsSent ++ [Sig.sigkill] }
                 else t
        { t with stopResolved := true }
      else s
  | StopEvent.exitEvt =>
      { s with graceTimerActive := false, isRunning := false, process := false,
               startupPromise := false, stopResolved := true }

/-! ## `start()` (source lines 42-53) -/

/-- What `start()` hands back to its caller. -/
inductive StartRet
  | disabledOk
  | existing
  | fresh
  deriving Repr, DecidableEq

/-- Controller state as seen by a `start()` call; `startAttempts`
counts invocations of `_start` (each of which runs at most one
`spawn`). -/
structure StartView where
  enabled : Bool
  startupPromise : Bool
  startAttempts : Nat
  deriving Repr, DecidableEq

/-- `start()` (lines 42-53): resolve at once when disabled; return the
existing `this.startupPromise` when one is present; otherwise assign
`this.startupPromise = this._start()` and return it. -/
def startCall (s : StartView) : StartView × StartRet :=
  if !s.enabled then (s, StartRet.disabledOk)
  else if s.startupPromise then (s, StartRet.existing)
  else ({ s with startupPromise := true, startAttempts := s.startAttempts + 1 },
        StartRet.fresh)

/-! ## `getConnectionUri()` and `isProcessRunning()`
(source lines 167-173) -/

/-- A whole-controller snapshot: the immutable resolved configuration
plus the mutable lifecycle fields. -/
structure ControllerState where
  config : SubprocessConfig
  process : Bool
  isRunning : Bool
  startupPromise : Bool
  deriving Repr, DecidableEq

/-- `getConnectionUri` (lines 167-169): reads only `this.config.port`. -/
def getConnectionUri (s : ControllerState) : String :=
  "mongodb://127.0.0.1:" ++ toString s.config.port

/-- `isProcessRunning` (lines 171-173). -/
def isProcessRunning (s : ControllerState) : Bool :=
  s.isRunning

/-! ## Port preflight (source lines 175-195) and the head of `_start`
(line 60) -/

/-- Outcome of the transient bind probe: the `listening` event, or the
`error` event carrying `err.code` and `err.message`. -/
inductive BindResult
  | bound
  | bindErr (code : String) (msg : String)
  deriving Repr, DecidableEq

/-- The two rejections `checkPortAvailable` can produce
(lines 181 and 183). -/
inductive PreflightErr
  | portInUse (port : Nat)
  | portCheckFailed (msg : String)
  deriving Repr, DecidableEq

/-- `checkPortAvailable` (lines 175-195): on `listening` the transient
server is closed and the promise resolves (the Bool records that the
listener was closed); on `error` with code `EADDRINUSE` it rejects with
the port-conflict error, on any other `error` with the generic
port-check error (listener never opened, so not closed). -/
def checkPortAvailable (port : Nat) (r : BindResult) :
    Except PreflightErr Unit × Bool :=
  match r with
  | BindResult.bound => (Except.ok (), true)
  | BindResult.bindErr code msg =>
      (if code = "EADDRINUSE" then Except.error (PreflightErr.portInUse port)
       else Except.error (PreflightErr.portCheckFailed msg), false)

/-- The head of `_start` (line 60): `await this.checkPortAvailable`
rejects the whole `_start` promise on preflight failure, so control
never reaches `spawn` (line 83); on success `_start` goes on to spawn
the binary with `buildArgs`. -/
def preflightThenSpawn (c : SubprocessConfig) (r : BindResult) :
    Except PreflightErr (List String) :=
  match (checkPortAvailable c.port r).1 with
  | Except.error e => Except.error e
  | Except.ok _ => Except.ok (buildArgs c)

/-! ## Concrete instances used by witnesses and counterexamples -/

/-- A caller configuration mirroring the subprocess example in
config/config.js: cache size configured as 0.5 GB. -/
def exampleUserConfig : MongoSubprocessConfig :=
  { enabled := true, mongodPath := some "mongod",
    dbPath := some "./.mongodb-data", port := some 27017,
    logPath := some "./logs/mongodb.log",
    wiredTigerCacheSizeGB := some "0.5" }

/-- A resolved configuration used by concrete witnesses. -/
def witnessCfg : SubprocessConfig :=
  { enabled := true, mongodPath := "mongod", dbPath := "./.mongodb-data",
    port := 27017, logPath := "./logs/mongodb.log",
    wiredTigerCacheSizeGB := none }

/-- A stopped controller holding `witnessCfg`. -/
def stoppedCtl : ControllerState :=
  { config := witnessCfg, process := false, isRunning := false,
    startupPromise := false }

/-- A running controller holding `witnessCfg`. -/
def runningCtl : ControllerState :=
  { config := witnessCfg, process := true, isRunning := true,
    startupPromise := true }

/-- A running controller as a `stop()` call sees it. -/
def runningStopView : StopState :=
  { process := true, isRunning := true, startupPromise := true,
    graceTimerActive := false, stopResolved := false, sigsSent := [] }

/-- A controller mid-startup (spawned, not yet ready) as a `stop()`
call sees it. -/
def startingStopView : StopState :=
  { process := true, isRunning := false, startupPromise := true,
    graceTimerActive := false, stopResolved := false, sigsSent := [] }

/-- An idle enabled controller as `start()` sees it. -/
def idleStartView : StartView :=
  { enabled := true, startupPromise := false, startAttempts := 0 }

/-- A controller with a startup in flight as `start()` sees it. -/
def busyStartView : StartView :=
  { enabled := true, startupPromise := true, startAttempts := 1 }

/-! ## Lemmas about the startup machine -/

/-- `settle` changes only `outcome`. -/
theorem settle_frame (s : AttemptState) (v : StartOutcome) :
    (settle s v).startupPromise = s.startupPromise ∧
    (settle s v).sigsSent = s.sigsSent ∧
    (settle s v).process = s.process ∧
    (settle s v).isRunning = s.isRunning ∧
    (settle s v).resolved = s.resolved ∧
    (settle s v).timerActive = s.timerActive := by
  cases ho : s.outcome <;> simp [settle, ho]

/-- `settle` on a pending promise writes `v`. -/
theorem settle_pending (s : AttemptState) (v : StartOutcome)
    (h : s.outcome = none) : (settle s v).outcome = some v := by
  simp [settle, h]

/-- `stopSyncCall` changes at most `sigsSent`. -/
theorem stopSyncCall_frame (s : AttemptState) :
    (stopSyncCall s).outcome = s.outcome ∧
    (stopSyncCall s).resolved = s.resolved ∧
    (stopSyncCall s).startupPromise = s.startupPromise ∧
    (stopSyncCall s).process = s.process ∧
    (stopSyncCall s).isRunning = s.isRunning ∧
    (stopSyncCall s).timerActive = s.timerActive := by
  unfold stopSyncCall; split <;> simp

/-- `stopSyncCall` is the identity when `isRunning` is false (the guard
at source line 143 fires). -/
theorem stopSyncCall_notRunning (s : AttemptState) (h : s.isRunning = false) :
    stopSyncCall s = s := by
  simp [stopSyncCall, h]

/-- A settled attempt: every further event leaves `outcome`, `resolved`
and `startupPromise` unchanged. -/
theorem stepStart_settled (s : AttemptState) (e : Event) (h : s.resolved = true) :
    (stepStart s e).outcome = s.outcome ∧ (stepStart s e).resolved = true ∧
    (stepStart s e).startupPromise = s.startupPromise := by
  cases e with
  | stdoutData out => by_cases hc : chunkSignalsReady out <;>
      simp [stepStart, hc, doResolve, h]
  | stderrData out => by_cases hc : chunkSignalsReady out <;>
      simp [stepStart, hc, doResolve, h]
  | errorEvt msg => simp [stepStart, doReject, h]
  | exitEvt code => simp [stepStart, h]
  | timeoutFire => by_cases ht : s.timerActive <;>
      simp [stepStart, ht, doReject, h]

/-- An event carrying no signal is ignored by the handlers. -/
theorem stepStart_noSignal (s : AttemptState) (e : Event)
    (hsig : signalOf e = none) : stepStart s e = s := by
  cases e with
  | stdoutData out =>
      by_cases hc : chunkSignalsReady out
      · simp [signalOf, hc] at hsig
      · simp [stepStart, hc]
  | stderrData out =>
      by_cases hc : chunkSignalsReady out
      · simp [signalOf, hc] at hsig
      · simp [stepStart, hc]
  | errorEvt msg => simp [signalOf] at hsig
  | exitEvt code => simp [signalOf] at hsig
  | timeoutFire => simp [signalOf] at hsig

/-- `doResolve` on a pending, unresolved attempt resolves it. -/
theorem doResolve_pending (s : AttemptState)
    (hr : s.resolved = false) (ho : s.outcome = none) :
    (doResolve s).outcome = some StartOutcome.ok ∧
    (doResolve s).resolved = true := by
  unfold doResolve
  rw [if_neg (by simp [hr])]
  exact ⟨settle_pending _ _ ho, (settle_frame _ _).2.2.2.2.1⟩

/-- `doReject` on a pending, unresolved attempt rejects it. -/
theorem doReject_pending (s : AttemptState) (e : StartErr)
    (hr : s.resolved = false) (ho : s.outcome = none) :
    (doReject s e).outcome = some (StartOutcome.err e) ∧
    (doReject s e).resolved = true := by
  unfold doReject
  rw [if_neg (by simp [hr])]
  constructor
  · exact settle_pending _ _ ((stopSyncCall_frame _).1.trans ho)
  · exact ((settle_frame _ _).2.2.2.2.1).trans (stopSyncCall_frame _).2.1

/-- On a pending attempt, the first signal settles the promise with the
outcome that signal dictates. -/
theorem stepStart_pending_signal (s : AttemptState) (e : Event) (g : Sigl)
    (hr : s.resolved = false) (ht : s.timerActive = true) (ho : s.outcome = none)
    (hsig : signalOf e = some g) :
    (stepStart s e).outcome = some (siglOutcome g) ∧
    (stepStart s e).resolved = true := by
  cases e with
  | stdoutData out =>
      by_cases hc : chunkSignalsReady out
      · simp only [signalOf, hc, if_true, Option.some.injEq] at hsig
        subst hsig
        simp only [stepStart, hc, if_true, siglOutcome]
        exact doResolve_pending s hr ho
      · simp [signalOf, hc] at hsig
  | stderrData out =>
      by_cases hc : chunkSignalsReady out
      · simp only [signalOf, hc, if_true, Option.some.injEq] at hsig
        subst hsig
        simp only [stepStart, hc, if_true, siglOutcome]
        exact doResolve_pending s hr ho
      · simp [signalOf, hc] at hsig
  | errorEvt msg =>
      simp only [signalOf, Option.some.injEq] at hsig
      subst hsig
      simp only [stepStart, siglOutcome]
      exact doReject_pending s _ hr ho
  | exitEvt code =>
      simp only [signalOf, Option.some.injEq] at hsig
      subst hsig
      simp only [stepStart, siglOutcome, hr, Bool.not_false, if_true]
      exact doReject_pending _ _ rfl ho
  | timeoutFire =>
      simp only [signalOf, Option.some.injEq] at hsig
      subst hsig
      simp only [stepStart, ht, if_true, siglOutcome]
      exact doReject_pending s _ hr ho

/-- Once settled, an attempt keeps its outcome (and stays resolved)
through any further events. -/
theorem foldl_settled (es : List Event) (s : AttemptState)
    (h : s.resolved = true) :
    (es.foldl stepStart s).outcome = s.outcome ∧
    (es.foldl stepStart s).resolved = true ∧
    (es.foldl stepStart s).startupPromise = s.startupPromise := by
  induction es generalizing s with
  | nil => exact ⟨rfl, h, rfl⟩
  | cons e es ih =>
      obtain ⟨h1, h2, h3⟩ := stepStart_settled s e h
      obtain ⟨g1, g2, g3⟩ := ih (stepStart s e) h2
      exact ⟨g1.trans h1, g2, g3.trans h3⟩

/-- From any pending, unresolved state with the timer armed, the
outcome after a run of events is dictated by the first signal among
them. -/
theorem foldl_pending (es : List Event) (s : AttemptState)
    (hr : s.resolved = false) (ht : s.timerActive = true)
    (ho : s.outcome = none) :
    (es.foldl stepStart s).outcome =
      ((es.filterMap signalOf).head?).map siglOutcome := by
  induction es generalizing s with
  | nil => simpa using ho
  | cons e es ih =>
      cases hsig : signalOf e with
      | none =>
          rw [List.foldl_cons, stepStart_noSignal s e hsig,
              List.filterMap_cons_none hsig]
          exact ih s hr ht ho
      | some g =>
          obtain ⟨h1, h2⟩ := stepStart_pending_signal s e g hr ht ho hsig
          rw [List.foldl_cons, (foldl_settled es (stepStart s e) h2).1, h1,
              List.filterMap_cons_some hsig]
          simp

/-- `doResolve` never writes `this.startupPromise`. -/
theorem doResolve_startupPromise (t : AttemptState) :
    (doResolve t).startupPromise = t.startupPromise := by
  unfold doResolve
  split
  · rfl
  · exact (settle_frame _ _).1

/-- `doReject` never writes `this.startupPromise`. -/
theorem doReject_startupPromise (t : AttemptState) (er : StartErr) :
    (doReject t er).startupPromise = t.startupPromise := by
  unfold doReject
  split
  · rfl
  · exact ((settle_frame _ _).1).trans (stopSyncCall_frame _).2.2.1

/-- No handler of `_start` ever writes `this.startupPromise`. -/
theorem stepStart_startupPromise (s : AttemptState) (e : Event) :
    (stepStart s e).startupPromise = s.startupPromise := by
  cases e with
  | stdoutData out =>
      by_cases hc : chunkSignalsReady out
      · simp only [stepStart, hc, if_true]
        exact doResolve_startupPromise s
      · simp [stepStart, hc]
  | stderrData out =>
      by_cases hc : chunkSignalsReady out
      · simp only [stepStart, hc, if_true]
        exact doResolve_startupPromise s
      · simp [stepStart, hc]
  | errorEvt msg =>
      simp only [stepStart]
      exact doReject_startupPromise s _
  | exitEvt code =>
      simp only [stepStart]
      split
      · exact doReject_startupPromise _ _
      · rfl
  | timeoutFire =>
      simp only [stepStart]
      split
      · exact doReject_startupPromise s _
      · rfl

/-- A whole startup run keeps `this.startupPromise` set: settling does
not clear it. -/
theorem runStart_startupPromise (es : List Event) :
    (runStart es).startupPromise = true := by
  suffices h : ∀ s : AttemptState, (es.foldl stepStart s).startupPromise
      = s.startupPromise by
    exact (h initAttempt).trans rfl
  induction es with
  | nil => intro s; rfl
  | cons e es ih =>
      intro s
      rw [List.foldl_cons, ih (stepStart s e), stepStart_startupPromise]

/-- The cleanup invariant of a startup run: `isRunning` implies the
attempt is resolved, and no kill signal has ever been sent (the
`this.stop()` inside `doReject` always hits the early-return guard). -/
theorem stepStart_cleanupInv (s : AttemptState) (e : Event)
    (h1 : s.sigsSent = []) (h2 : s.isRunning = true → s.resolved = true) :
    (stepStart s e).sigsSent = [] ∧
    ((stepStart s e).isRunning = true → (stepStart s e).resolved = true) := by
  have hnr : s.resolved = false → s.isRunning = false := by
    intro hr
    cases hir : s.isRunning
    · rfl
    · rw [h2 hir] at hr; exact absurd hr (by simp)
  cases e with
  | stdoutData out =>
      by_cases hc : chunkSignalsReady out
      · simp only [stepStart, hc, if_true]
        unfold doResolve
        split
        · exact ⟨h1, h2⟩
        · constructor
          · exact ((settle_frame _ _).2.1).trans h1
          · intro _
            exact ((settle_frame _ _).2.2.2.2.1).trans rfl
      · simpa [stepStart, hc] using ⟨h1, h2⟩
  | stderrData out =>
      by_cases hc : chunkSignalsReady out
      · simp only [stepStart, hc, if_true]
        unfold doResolve
        split
        · exact ⟨h1, h2⟩
        · constructor
          · exact ((settle_frame _ _).2.1).trans h1
          · intro _
            exact ((settle_frame _ _).2.2.2.2.1).trans rfl
      · simpa [stepStart, hc] using ⟨h1, h2⟩
  | errorEvt msg =>
      simp only [stepStart]
      unfold doReject
      split
      · exact ⟨h1, h2⟩
      · rename_i hr
        have hir : s.isRunning = false := hnr (by revert hr; cases s.resolved <;> simp)
        constructor
        · rw [(settle_frame _ _).2.1,
              stopSyncCall_notRunning
                ({ s with resolved := true, timerActive := false }) hir]
          exact h1
        · intro _
          exact ((settle_frame _ _).2.2.2.2.1).trans (stopSyncCall_frame _).2.1
  | exitEvt code =>
      simp only [stepStart]
      split
      · unfold doReject
        split
        · exact ⟨h1, by intro h; simp at h⟩
        · constructor
          · rw [(settle_frame _ _).2.1,
                stopSyncCall_notRunning
                  ({ s with isRunning := false, process := false,
                            resolved := true, timerActive := false }) rfl]
            exact h1
          · intro _
            exact ((settle_frame _ _).2.2.2.2.1).trans (stopSyncCall_frame _).2.1
      · exact ⟨h1, by intro h; simp at h⟩
  | timeoutFire =>
      simp only [stepStart]
      split
      · unfold doReject
        split
        · exact ⟨h1, h2⟩
        · rename_i _ hr
          have hir : s.isRunning = false := hnr (by revert hr; cases s.resolved <;> simp)
          constructor
          · rw [(settle_frame _ _).2.1,
                stopSyncCall_notRunning
                  ({ s with resolved := true, timerActive := false }) hir]
            exact h1
          · intro _
            exact ((settle_frame _ _).2.2.2.2.1).trans (stopSyncCall_frame _).2.1
      · exact ⟨h1, h2⟩

/-- Over a whole startup run no kill signal is ever sent: the cleanup
`this.stop()` inside `doReject` is always a no-op because `isRunning`
is still false at rejection time. -/
theorem runStart_sigsSent (es : List Event) : (runStart es).sigsSent = [] := by
  suffices h : ∀ s : AttemptState, s.sigsSent = [] →
      (s.isRunning = true → s.resolved = true) →
      (es.foldl stepStart s).sigsSent = [] ∧
      ((es.foldl stepStart s).isRunning = true →
        (es.foldl stepStart s).resolved = true) by
    exact (h initAttempt rfl (by intro h; simp [initAttempt] at h)).1
  induction es with
  | nil => intro s h1 h2; exact ⟨h1, h2⟩
  | cons e es ih =>
      intro s h1 h2
      obtain ⟨g1, g2⟩ := stepStart_cleanupInv s e h1 h2
      exact ih (stepStart s e) g1 g2

/-- The outcome of a whole startup run is dictated by its first
signal. -/
theorem runStart_outcome (es : List Event) :
    (runStart es).outcome =
      ((es.filterMap signalOf).head?).map siglOutcome :=
  foldl_pending es initAttempt rfl rfl rfl

/-! ## The claims -/

/-- C1: for every startup attempt and every interleaving of the four
signals (readiness marker on stdout or stderr, spawn error event,
process exit event, startup timeout), the promise returned by
`start()` settles exactly once: after any run of events its settlement
equals the outcome dictated by the first-arriving signal (still
pending when no signal has arrived), so every later signal leaves the
settled outcome unchanged. -/
theorem startup_settles_exactly_once (es : List Event) :
    (runStart es).outcome =
      ((es.filterMap signalOf).head?).map siglOutcome :=
  runStart_outcome es

/-- C2 (evidence of the code bug): when the startup timeout fires
first, the promise is rejected with the timeout error, yet no kill
signal was ever sent, the process handle is still set and the
startup-promise reference is still set — the cleanup `this.stop()`
inside `doReject` returns early because `isRunning` is still false.
Indeed no startup run ever sends any kill signal. -/
theorem startup_timeout_cleanup_is_noop :
    (runStart [Event.timeoutFire]).outcome
        = some (StartOutcome.err StartErr.startupTimeout) ∧
    (runStart [Event.timeoutFire]).sigsSent = [] ∧
    (runStart [Event.timeoutFire]).process = true ∧
    (runStart [Event.timeoutFire]).isRunning = false ∧
    (runStart [Event.timeoutFire]).startupPromise = true ∧
    (∀ es : List Event, (runStart es).sigsSent = []) :=
  ⟨rfl, rfl, rfl, rfl, rfl, runStart_sigsSent⟩

/-- C3 counterexample: a premature exit settles (rejects) the startup
future, yet the startup-promise reference is still set afterwards — it
is not cleared at the moment the future settles. -/
theorem startupPromise_not_cleared_at_settle :
    (runStart [Event.exitEvt (some 1)]).outcome
        = some (StartOutcome.err (StartErr.prematureExit (some 1))) ∧
    (runStart [Event.exitEvt (some 1)]).startupPromise = true :=
  ⟨rfl, rfl⟩

/-- C3 (amended): the startup-promise reference is never cleared by
the settlement of the startup future (it survives every startup run);
it is cleared only when a `stop()` call completes through its exit
handler; while it is set, a further `start()` on an enabled controller
returns the same stale settled future instead of beginning a fresh
attempt. -/
theorem startupPromise_cleared_only_by_stop (es : List Event)
    (s : StopState) (v : StartView)
    (hv : v.enabled = true) (hp : v.startupPromise = true) :
    (runStart es).startupPromise = true ∧
    (stepStop s StopEvent.exitEvt).startupPromise = false ∧
    startCall v = (v, StartRet.existing) := by
  refine ⟨runStart_startupPromise es, rfl, ?_⟩
  simp [startCall, hv, hp]

/-- Witness for C3 (amended) at concrete inputs. -/
theorem startupPromise_cleared_only_by_stop_witness :
    (runStart [Event.exitEvt none]).startupPromise = true ∧
    (stepStop runningStopView StopEvent.exitEvt).startupPromise = false ∧
    startCall busyStartView = (busyStartView, StartRet.existing) :=
  startupPromise_cleared_only_by_stop [Event.exitEvt none]
    runningStopView busyStartView rfl rfl

/-- C4: while a startup attempt is in flight (the startup-promise
reference is set), every further `start()` call returns that same
in-flight future and changes nothing, and no matter how many further
calls are made, `_start` (hence `spawn`) is not invoked again;
conversely a call on an enabled idle controller begins exactly one
fresh attempt. -/
theorem start_deduplicates (v w : StartView)
    (hv : v.enabled = true) (hp : v.startupPromise = true)
    (hw : w.enabled = true) (hq : w.startupPromise = false) (n : Nat) :
    startCall v = (v, StartRet.existing) ∧
    ((fun t => (startCall t).1)^[n] v).startAttempts = v.startAttempts ∧
    startCall w = ({ w with
                     startupPromise := true
                     startAttempts := w.startAttempts + 1 },
                   StartRet.fresh) := by
  have h1 : startCall v = (v, StartRet.existing) := by simp [startCall, hv, hp]
  refine ⟨h1, ?_, by simp [startCall, hw, hq]⟩
  have hfix : (fun t => (startCall t).1) v = v := by simp [h1]
  rw [Function.iterate_fixed hfix n]

/-- Witness for C4 at concrete inputs. -/
theorem start_deduplicates_witness :
    startCall busyStartView = (busyStartView, StartRet.existing) ∧
    ((fun t => (startCall t).1)^[3] busyStartView).startAttempts
        = busyStartView.startAttempts ∧
    startCall idleStartView
        = ({ idleStartView with
             startupPromise := true
             startAttempts := idleStartView.startAttempts + 1 },
           StartRet.fresh) :=
  start_deduplicates busyStartView idleStartView rfl rfl rfl rfl 3

/-- C5: on a controller whose handle exists and is running, `stop()`
takes the pending path after sending the graceful SIGTERM; if the exit
event arrives it resolves with no further signal, and if the 5-second
grace timer fires first it sends SIGKILL and still resolves; the stop
promise executor has no rejection path at all, so `stop()` never
rejects. -/
theorem stop_escalates_and_resolves (s : StopState)
    (hp : s.process = true) (hr : s.isRunning = true) :
    (stopEntry s).2 = StopRet.pending ∧
    (stopEntry s).1.sigsSent = s.sigsSent ++ [Sig.sigterm] ∧
    (stepStop (stopEntry s).1 StopEvent.exitEvt).stopResolved = true ∧
    (stepStop (stopEntry s).1 StopEvent.exitEvt).sigsSent
        = s.sigsSent ++ [Sig.sigterm] ∧
    (stepStop (stopEntry s).1 StopEvent.graceFire).stopResolved = true ∧
    (stepStop (stopEntry s).1 StopEvent.graceFire).sigsSent
        = s.sigsSent ++ [Sig.sigterm, Sig.sigkill] ∧
    stopGraceMs = 5000 := by
  simp [stopEntry, hp, hr, stepStop, stopGraceMs]

/-- Witness for C5 at a concrete running controller. -/
theorem stop_escalates_and_resolves_witness :
    (stopEntry runningStopView).2 = StopRet.pending ∧
    (stopEntry runningStopView).1.sigsSent
        = runningStopView.sigsSent ++ [Sig.sigterm] ∧
    (stepStop (stopEntry runningStopView).1 StopEvent.exitEvt).stopResolved
        = true ∧
    (stepStop (stopEntry runningStopView).1 StopEvent.exitEvt).sigsSent
        = runningStopView.sigsSent ++ [Sig.sigterm] ∧
    (stepStop (stopEntry runningStopView).1 StopEvent.graceFire).stopResolved
        = true ∧
    (stepStop (stopEntry runningStopView).1 StopEvent.graceFire).sigsSent
        = runningStopView.sigsSent ++ [Sig.sigterm, Sig.sigkill] ∧
    stopGraceMs = 5000 :=
  stop_escalates_and_resolves runningStopView rfl rfl

/-- C6 (evidence of the code bug): the constructor drops the
configured cache size — `resolveConfig` always stores `none` for it,
for every working directory and caller configuration — so with the
cache size configured (as in the config example shipped with the
repository) the argument list still carries the data directory, port,
log path and loopback bind address, but not the cache-size flag. -/
theorem cacheSize_flag_dropped :
    (∀ (cwd : String) (c : MongoSubprocessConfig),
      (resolveConfig cwd c).wiredTigerCacheSizeGB = none) ∧
    exampleUserConfig.wiredTigerCacheSizeGB.isSome = true ∧
    "--wiredTigerCacheSizeGB"
        ∉ buildArgs (resolveConfig "/srv" exampleUserConfig) ∧
    "--dbpath" ∈ buildArgs (resolveConfig "/srv" exampleUserConfig) ∧
    "./.mongodb-data" ∈ buildArgs (resolveConfig "/srv" exampleUserConfig) ∧
    "--port" ∈ buildArgs (resolveConfig "/srv" exampleUserConfig) ∧
    "27017" ∈ buildArgs (resolveConfig "/srv" exampleUserConfig) ∧
    "--logpath" ∈ buildArgs (resolveConfig "/srv" exampleUserConfig) ∧
    "./logs/mongodb.log" ∈ buildArgs (resolveConfig "/srv" exampleUserConfig) ∧
    "--bind_ip" ∈ buildArgs (resolveConfig "/srv" exampleUserConfig) ∧
    "127.0.0.1" ∈ buildArgs (resolveConfig "/srv" exampleUserConfig) :=
  ⟨fun _ _ => rfl, by decide, by decide, by decide, by decide, by decide,
   by decide, by decide, by decide, by decide, by decide⟩

/-- C7 counterexample: an all-caps chunk contains the marker phrase
under case-insensitive matching, but the code does not treat it as the
readiness signal and the startup future stays pending. -/
theorem readiness_not_case_insensitive :
    specReadyCaseInsensitive "WAITING FOR CONNECTIONS" = true ∧
    chunkSignalsReady "WAITING FOR CONNECTIONS" = false ∧
    (runStart [Event.stdoutData "WAITING FOR CONNECTIONS"]).outcome = none :=
  ⟨by decide, by decide, by decide⟩

/-- C7 (amended): the startup future resolves the first time a chunk
on either stream contains the marker in one of the two hard-coded
casings, `Waiting for connections` or `waiting for connections` (exact
substring match, not fully case-insensitive), regardless of which
stream carries it; any events after that first marker chunk leave the
resolved outcome unchanged, so readiness is signaled at most once. -/
theorem readiness_marker_two_casings (es tail : List Event) (out : String)
    (hpre : es.filterMap signalOf = [])
    (hout : chunkSignalsReady out = true) :
    (runStart (es ++ Event.stdoutData out :: tail)).outcome
        = some StartOutcome.ok ∧
    (runStart (es ++ Event.stderrData out :: tail)).outcome
        = some StartOutcome.ok ∧
    chunkSignalsReady "Waiting for connections" = true ∧
    chunkSignalsReady "waiting for connections" = true := by
  have key : ∀ e : Event, signalOf e = some Sigl.ready →
      (runStart (es ++ e :: tail)).outcome = some StartOutcome.ok := by
    intro e he
    rw [runStart_outcome, List.filterMap_append, hpre, List.nil_append,
        List.filterMap_cons_some he]
    simp [siglOutcome]
  exact ⟨key _ (by simp [signalOf, hout]), key _ (by simp [signalOf, hout]),
         by decide, by decide⟩

/-- Witness for C7 (amended) at concrete inputs. -/
theorem readiness_marker_two_casings_witness :
    (runStart ([Event.stdoutData "booting"]
        ++ Event.stdoutData "waiting for connections" :: [Event.timeoutFire])).outcome
        = some StartOutcome.ok ∧
    (runStart ([Event.stdoutData "booting"]
        ++ Event.stderrData "waiting for connections" :: [Event.timeoutFire])).outcome
        = some StartOutcome.ok ∧
    chunkSignalsReady "Waiting for connections" = true ∧
    chunkSignalsReady "waiting for connections" = true :=
  readiness_marker_two_casings [Event.stdoutData "booting"] [Event.timeoutFire]
    "waiting for connections" (by decide) (by decide)

/-- C8: the preflight probe binds a transient listener on the
configured port before spawning; on bind success the listener is
closed and `_start` goes on to spawn with the constructed arguments;
on an address-in-use bind failure `_start` rejects with the
port-conflict error and never reaches `spawn`; on any other bind
failure it rejects with the generic port-check error. -/
theorem preflight_port_check (c : SubprocessConfig) (code msg : String)
    (hc : code ≠ "EADDRINUSE") :
    checkPortAvailable c.port BindResult.bound = (Except.ok (), true) ∧
    preflightThenSpawn c BindResult.bound = Except.ok (buildArgs c) ∧
    preflightThenSpawn c (BindResult.bindErr "EADDRINUSE" msg)
        = Except.error (PreflightErr.portInUse c.port) ∧
    preflightThenSpawn c (BindResult.bindErr code msg)
        = Except.error (PreflightErr.portCheckFailed msg) := by
  refine ⟨rfl, rfl, rfl, ?_⟩
  simp [preflightThenSpawn, checkPortAvailable, hc]

/-- Witness for C8 at concrete inputs. -/
theorem preflight_port_check_witness :
    checkPortAvailable witnessCfg.port BindResult.bound
        = (Except.ok (), true) ∧
    preflightThenSpawn witnessCfg BindResult.bound
        = Except.ok (buildArgs witnessCfg) ∧
    preflightThenSpawn witnessCfg (BindResult.bindErr "EADDRINUSE" "busy")
        = Except.error (PreflightErr.portInUse witnessCfg.port) ∧
    preflightThenSpawn witnessCfg (BindResult.bindErr "EACCES" "busy")
        = Except.error (PreflightErr.portCheckFailed "busy") :=
  preflight_port_check witnessCfg "EACCES" "busy" (by decide)

/-- C9: `getConnectionUri()` returns the string
`mongodb://127.0.0.1:<port>` computed from the configured port alone;
it is a total function of the snapshot and two controllers sharing a
configuration give the same value whatever their lifecycle fields
are. -/
theorem getConnectionUri_pure_of_config (s t : ControllerState)
    (h : s.config = t.config) :
    getConnectionUri s = "mongodb://127.0.0.1:" ++ toString s.config.port ∧
    getConnectionUri s = getConnectionUri t :=
  ⟨rfl, by simp [getConnectionUri, h]⟩

/-- Witness for C9: a stopped and a running controller with the same
configuration give the same URI. -/
theorem getConnectionUri_pure_of_config_witness :
    getConnectionUri stoppedCtl
        = "mongodb://127.0.0.1:" ++ toString stoppedCtl.config.port ∧
    getConnectionUri stoppedCtl = getConnectionUri runningCtl :=
  getConnectionUri_pure_of_config stoppedCtl runningCtl rfl

/-- C10: a `stop()` call made while a startup attempt is in flight (a
process handle exists but `isRunning` is still false) returns
immediately and changes nothing: the guard at the top of `stop` fires,
so no termination signal is sent, no field is touched and the pending
startup future is left alone — both for a top-level `stop()` call and
for the `this.stop()` made inside `doReject`. -/
theorem stop_during_startup_is_noop (s : StopState) (a : AttemptState)
    (_hp : s.process = true) (hr : s.isRunning = false)
    (_hap : a.process = true) (har : a.isRunning = false) :
    stopEntry s = (s, StopRet.immediate) ∧ stopSyncCall a = a := by
  constructor
  · simp [stopEntry, hr]
  · exact stopSyncCall_notRunning a har

/-- Witness for C10: the mid-startup controller view and the freshly
spawned attempt state. -/
theorem stop_during_startup_is_noop_witness :
    stopEntry startingStopView = (startingStopView, StopRet.immediate) ∧
    stopSyncCall initAttempt = initAttempt :=
  stop_during_startup_is_noop startingStopView initAttempt rfl rfl rfl rfl

end MongoDBSubprocess
